import Mathlib

/-!
Verification development for the TruePass chatbot (src/TruePass/Chatbot/chatbot.py).

The Python code is shallowly embedded: pure functions become Lean functions,
the mutable chatbot object becomes explicit state passing, Python floats
(used only as exact ratios of small integers here) become ℚ, and the external
g4f completion collaborator is modelled by the outcome of its call for the
turn under consideration (an `Except String String` parameter).
-/

/-! ## Python string primitives (ASCII-faithful) -/

/-- Python substring containment helper: `needle` is a prefix of the list. -/
def isPrefixCL : List Char → List Char → Bool
  | [], _ => true
  | _ :: _, [] => false
  | a :: as, b :: bs => a == b && isPrefixCL as bs

/-- Python `needle in hay` on strings: `needle` occurs as a contiguous substring. -/
def isSubCL (needle : List Char) : List Char → Bool
  | [] => needle.isEmpty
  | c :: t => isPrefixCL needle (c :: t) || isSubCL needle t

/-- Python `needle in hay` for `String`. -/
def pyIn (needle hay : String) : Bool :=
  isSubCL needle.data hay.data

/-- Python `str.lower()` (ASCII case folding, as exercised by the chatbot). -/
def lowerStr (s : String) : String :=
  String.mk (s.data.map Char.toLower)

/-- Counts the words of Python `str.split()` (maximal runs of non-whitespace). -/
def splitWsCount : List Char → Bool → Nat
  | [], _ => 0
  | c :: rest, inWord =>
    if c.isWhitespace then splitWsCount rest false
    else (if inWord then 0 else 1) + splitWsCount rest true

/-- `len(s.split())` in Python. -/
def wordCount (s : String) : Nat :=
  splitWsCount s.data false

/-- Python `str.strip()` on a character list. -/
def stripCL (l : List Char) : List Char :=
  ((l.dropWhile Char.isWhitespace).reverse.dropWhile Char.isWhitespace).reverse

/-- Python `str.strip()`. -/
def pyStrip (s : String) : String :=
  String.mk (stripCL s.data)

/-! ## Intent pattern table (`intent_patterns` in `analyze_user_intent`) -/

structure IntentPattern where
  keywords : List String
  confidence_boost : List String
  entities : List String
deriving DecidableEq

/-- The fixed 8-entry table of `analyze_user_intent`, in source order. -/
def intent_patterns : List (String × IntentPattern) :=
  [("ticket_purchase",
    { keywords := ["buy ticket", "purchase ticket", "ticket price", "book ticket", "inr", "rupee", "pay"],
      confidence_boost := ["upi", "paytm", "credit card", "payment"],
      entities := ["price", "payment_method", "ticket_type"] }),
   ("ticket_generation",
    { keywords := ["generate ticket", "create ticket", "mint ticket", "new ticket", "totp", "qr code"],
      confidence_boost := ["authenticator", "google authenticator", "secret key"],
      entities := ["event_name", "expiry_time", "ticket_id"] }),
   ("ticket_validation",
    { keywords := ["validate ticket", "verify ticket", "check ticket", "authentication", "totp code"],
      confidence_boost := ["6 digit", "authenticator code", "validation failed"],
      entities := ["token_id", "totp_code", "validation_status"] }),
   ("wallet_connection",
    { keywords := ["wallet", "metamask", "connect wallet", "wallet connection", "ethereum"],
      confidence_boost := ["can\x27t connect", "connection failed", "wallet error"],
      entities := ["wallet_type", "error_message", "network"] }),
   ("nft_marketplace",
    { keywords := ["nft", "marketplace", "collection", "buy nft", "sell nft", "trade"],
      confidence_boost := ["opensea", "digital art", "collectible"],
      entities := ["nft_type", "collection_name", "price_range"] }),
   ("payment_issues",
    { keywords := ["payment failed", "transaction error", "payment not working", "can\x27t pay"],
      confidence_boost := ["upi failed", "card declined", "payment timeout"],
      entities := ["payment_method", "error_code", "amount"] }),
   ("technical_support",
    { keywords := ["error", "not working", "problem", "issue", "help", "stuck"],
      confidence_boost := ["browser", "mobile", "slow", "crashed"],
      entities := ["error_type", "device_type", "browser"] }),
   ("general_info",
    { keywords := ["what is", "how does", "explain", "about", "overview", "features"],
      confidence_boost := ["truepass", "blockchain", "crypto"],
      entities := ["topic", "feature_name"] })]

/-! ## Intent scoring (`analyze_user_intent`, lines 279-313) -/

/-- One pattern's score: keyword matches ×2 plus boost matches ×3,
divided by `max(len(user_input_lower.split()), 1)`. -/
def patternScore (user_input_lower : String) (p : IntentPattern) : ℚ :=
  let keyword_matches : Nat := (p.keywords.filter (fun k => pyIn k user_input_lower)).length
  let boost_matches : Nat := (p.confidence_boost.filter (fun b => pyIn b user_input_lower)).length
  ((keyword_matches : ℚ) * 2 + (boost_matches : ℚ) * 3) /
    ((max (wordCount user_input_lower) 1 : Nat) : ℚ)

/-- The `intent_scores` dict, as an ordered association list. -/
def intentScores (user_input_lower : String) : List (String × ℚ) :=
  intent_patterns.map (fun ip => (ip.1, patternScore user_input_lower ip.2))

/-- One step of Python `max(keys, key=get)`: keep the current best unless the
next element is strictly greater (so the first maximum wins). -/
def pyMaxStep (b c : String × ℚ) : String × ℚ :=
  if b.2 < c.2 then c else b

/-- `max(intent_scores, key=intent_scores.get) if intent_scores else "general_info"`. -/
def pyMaxByVal : List (String × ℚ) → String
  | [] => "general_info"
  | x :: xs => (xs.foldl pyMaxStep x).1

/-- `intent_scores.get(key, 0)`. -/
def scoresGet (l : List (String × ℚ)) (k : String) : ℚ :=
  match l.find? (fun q => q.1 == k) with
  | some q => q.2
  | none => 0

/-! ## Entity extraction (`_extract_entities`, lines 315-346)

Each Python regex is embedded by its search semantics (leftmost match,
greedy with the backtracking the concrete pattern can actually exercise). -/

/-- Is the head of the list an ASCII digit (regex `\d`)? -/
def headIsDigit : List Char → Bool
  | [] => false
  | c :: _ => c.isDigit

/-- Regex word character `\w` (ASCII). -/
def isWordChar (c : Char) : Bool :=
  c.isAlphanum || c == '_'

/-- Is the head of the list a word character? -/
def headIsWord : List Char → Bool
  | [] => false
  | c :: _ => isWordChar c

/-- Greedy capture of `\d+(?:,\d+)*` starting at a digit. -/
def capDigits : List Char → List Char
  | [] => []
  | c :: t =>
    if c.isDigit then c :: capDigits t
    else if c == ',' && headIsDigit t then c :: capDigits t
    else []

/-- Anchored match of the shipped price pattern.  The source file is
byte-level double-encoded, so the literal in `re.search(r'â‚¹?(\d+(?:,\d+)*)', text)`
is the three characters U+00E2, U+201A, U+00B9 with only the last one
optional — not an optional rupee sign. -/
def priceMatchAt : List Char → Option (List Char)
  | 'â' :: '‚' :: '¹' :: r2 =>
    if headIsDigit r2 then some (capDigits r2) else none
  | 'â' :: '‚' :: r =>
    if headIsDigit r then some (capDigits r) else none
  | _ => none

/-- `re.search` for the price pattern: leftmost position that matches. -/
def searchPrice : List Char → Option (List Char)
  | [] => none
  | c :: t =>
    match priceMatchAt (c :: t) with
    | some g => some g
    | none => searchPrice t

/-- The fixed `payment_methods` vocabulary, in source priority order. -/
def payment_methods : List String :=
  ["upi", "paytm", "credit card", "debit card", "net banking"]

/-- The payment-method loop: first vocabulary entry contained in the lowered text. -/
def findPayment (text_lower : String) : Option String :=
  payment_methods.find? (fun m => pyIn m text_lower)

/-- Greedy `\s*`. -/
def skipWs : List Char → List Char
  | [] => []
  | c :: t => if c.isWhitespace then skipWs t else c :: t

/-- Greedy `\w+` capture (empty when the head is not a word character). -/
def wordRun : List Char → List Char
  | [] => []
  | c :: t => if isWordChar c then c :: wordRun t else []

/-- Tail `\s*:?\s*(\w+)` of the token-id pattern. -/
def tokenTail (r : List Char) : Option (List Char) :=
  let r1 := skipWs r
  let r2 := match r1 with
    | ':' :: t => skipWs t
    | _ => r1
  match wordRun r2 with
  | [] => none
  | w => some w

/-- Anchored match of `token\s*(?:id)?\s*:?\s*(\w+)`: the optional `id` is
tried greedily and given back when the remainder of the pattern fails. -/
def tokenMatchAt : List Char → Option (List Char)
  | 't' :: 'o' :: 'k' :: 'e' :: 'n' :: rest =>
    let r1 := skipWs rest
    (match r1 with
     | 'i' :: 'd' :: r2 =>
       match tokenTail r2 with
       | some w => some w
       | none => tokenTail r1
     | _ => tokenTail r1)
  | _ => none

/-- `re.search` for the token-id pattern. -/
def searchToken : List Char → Option (List Char)
  | [] => none
  | c :: t =>
    match tokenMatchAt (c :: t) with
    | some w => some w
    | none => searchToken t

/-- Anchored `\d{6}\b`: six digits not followed by a word character. -/
def sixDigitsAt : List Char → Option (List Char)
  | a :: b :: c :: d :: e :: f :: rest =>
    if a.isDigit && b.isDigit && c.isDigit && d.isDigit && e.isDigit && f.isDigit
        && !headIsWord rest then
      some [a, b, c, d, e, f]
    else none
  | _ => none

/-- `re.search(r'\b(\d{6})\b', text)`: the boolean argument records whether the
preceding character was a word character (for the leading `\b`). -/
def searchTotp : Bool → List Char → Option (List Char)
  | _, [] => none
  | prevIsWord, c :: t =>
    match (if prevIsWord then none else sixDigitsAt (c :: t)) with
    | some w => some w
    | none => searchTotp (isWordChar c) t

/-- One guarded update of the `entities` dict: `if name in entity_types: ...
entities[name] = value` (keys are pairwise distinct across the four checks). -/
def addEntity (l : List (String × String)) (cond : Bool) (name : String)
    (o : Option String) : List (String × String) :=
  if cond then
    match o with
    | some v => l ++ [(name, v)]
    | none => l
  else l

/-- `_extract_entities(text, entity_types)`: price and totp run on the raw
text, payment method and token id on the lowered text, in source order. -/
def extractEntities (text : String) (entity_types : List String) :
    List (String × String) :=
  let text_lower := lowerStr text
  let entities : List (String × String) := []
  let entities := addEntity entities (entity_types.contains "price") "price"
    ((searchPrice text.data).map String.mk)
  let entities := addEntity entities (entity_types.contains "payment_method") "payment_method"
    (findPayment text_lower)
  let entities := addEntity entities (entity_types.contains "token_id") "token_id"
    ((searchToken text_lower.data).map String.mk)
  let entities := addEntity entities (entity_types.contains "totp_code") "totp_code"
    ((searchTotp false text.data).map String.mk)
  entities

/-! ## `analyze_user_intent` -/

structure IntentResult where
  intent : String
  confidence : ℚ
  entities : List (String × String)
  all_scores : List (String × ℚ)
deriving DecidableEq

/-- `analyze_user_intent(user_input)` (lines 227-313). -/
def analyzeUserIntent (user_input : String) : IntentResult :=
  let user_input_lower := lowerStr user_input
  let intent_scores := intentScores user_input_lower
  let primary_intent := pyMaxByVal intent_scores
  let confidence := scoresGet intent_scores primary_intent
  let detected_entities :=
    match intent_patterns.find? (fun ip => ip.1 == primary_intent) with
    | some ip => extractEntities user_input ip.2.entities
    | none => []
  { intent := primary_intent, confidence := confidence,
    entities := detected_entities, all_scores := intent_scores }


/-! ## A numerator-level mirror of the scorer

All eight scores of one input share the positive denominator
`max(wordCount, 1)`, so the argmax and the reported confidence can be
computed over the natural-number numerators.  The correspondence is proved
once and reused to evaluate `analyzeUserIntent` on concrete inputs (the
rational arithmetic itself does not reduce inside the kernel). -/

/-- The un-normalized score `keyword_matches * 2 + boost_matches * 3`. -/
def rawScoreN (user_input_lower : String) (p : IntentPattern) : Nat :=
  (p.keywords.filter (fun k => pyIn k user_input_lower)).length * 2 +
    (p.confidence_boost.filter (fun b => pyIn b user_input_lower)).length * 3

/-- Numerators of `intent_scores`, in table order. -/
def intentScoresN (user_input_lower : String) : List (String × Nat) :=
  intent_patterns.map (fun ip => (ip.1, rawScoreN user_input_lower ip.2))

/-- Nat-level analogue of `pyMaxStep`. -/
def pyMaxStepN (b c : String × Nat) : String × Nat :=
  if b.2 < c.2 then c else b

/-- Nat-level analogue of `pyMaxByVal`. -/
def pyMaxByValN : List (String × Nat) → String
  | [] => "general_info"
  | x :: xs => (xs.foldl pyMaxStepN x).1

/-- Nat-level analogue of `scoresGet`. -/
def scoresGetN (l : List (String × Nat)) (k : String) : Nat :=
  match l.find? (fun q => q.1 == k) with
  | some q => q.2
  | none => 0

/-- The shared denominator of one input's scores. -/
def qden (user_input_lower : String) : ℚ :=
  ((max (wordCount user_input_lower) 1 : Nat) : ℚ)

/-- Embeds a numerator entry into the rational score list. -/
def overDen (d : ℚ) (q : String × Nat) : String × ℚ :=
  (q.1, (q.2 : ℚ) / d)

/-! ## The all-zero-score predicate of claim C1 -/

/-- No keyword and no boost keyword of any pattern occurs in the lowered text. -/
def noKeywordHit (user_input : String) : Bool :=
  intent_patterns.all (fun ip =>
    (ip.2.keywords ++ ip.2.confidence_boost).all
      (fun k => !(pyIn k (lowerStr user_input))))

/-! ## The score formula as the specification words it (claim C3) -/

/-- The scoring algorithm as the specification words it (section 4.1):
normalize to lowercase, `keywordScore` = matches × 2, `boostScore` =
matches × 3, `rawScore` their sum, then divide by
`max(wordCount(normalizedText), 1)`. -/
def specScore (text : String) (p : IntentPattern) : ℚ :=
  let normalized := lowerStr text
  let keywordScore : ℚ :=
    ((p.keywords.filter (fun k => pyIn k normalized)).length : ℚ) * 2
  let boostScore : ℚ :=
    ((p.confidence_boost.filter (fun b => pyIn b normalized)).length : ℚ) * 3
  let rawScore : ℚ := keywordScore + boostScore
  rawScore / ((max (wordCount normalized) 1 : Nat) : ℚ)

/-! ## Canned responses (`get_quick_response`, lines 452-604)

The response texts are copied from the source file byte-for-byte (the file is
double-encoded, hence the mojibake glyph runs), with apostrophes written as
`\x27` escapes. -/

def welcomeText : String :=
  "ğŸ‰ **Welcome to TruePass!**\n\nYour gateway to NFTs and blockchain tickets with Indian Rupee payments!\n\n**ğŸš€ Quick Start:**\nâ€¢ New here? I\x27ll guide you through wallet setup\nâ€¢ Want to buy tickets? Ask about our INR payment options  \nâ€¢ Need to validate tickets? Learn about our TOTP system\nâ€¢ Exploring NFTs? Discover our marketplace features\n\n**ğŸ’¡ Popular Questions:**\nâ€¢ \"How do I buy tickets with UPI?\"\nâ€¢ \"What is blockchain ticket validation?\"\nâ€¢ \"How do I connect my MetaMask wallet?\"\n\nWhat would you like to explore first? ğŸ˜Š"

def ticketBuyingText : String :=
  "ğŸ« **Buying Tickets with INR - Super Easy!**\n\n**Step-by-Step Process:**\n1ï¸âƒ£ **Browse** available tickets (prices shown in â‚¹)\n2ï¸âƒ£ **Connect** your Ethereum wallet (one-time setup)\n3ï¸âƒ£ **Select** your desired ticket and click \x27Buy Now\x27\n4ï¸âƒ£ **Choose** payment: UPI, Paytm, or Credit Card\n5ï¸âƒ£ **Pay** in Indian Rupees - no crypto needed!\n6ï¸âƒ£ **Receive** your NFT ticket automatically in wallet\n\n**ğŸ¯ Key Benefits:**\nâ€¢ No need to buy crypto first\nâ€¢ All major Indian payment methods supported\nâ€¢ Instant ticket delivery to your wallet\nâ€¢ Secure blockchain ownership\n\n**Need help with any step?** Just ask! ğŸ™‹â€â™‚ï¸"

def walletSetupText : String :=
  "ğŸ”— **MetaMask Wallet Setup - Made Simple!**\n\n**Installation & Setup:**\n1ï¸âƒ£ **Download** MetaMask browser extension\n2ï¸âƒ£ **Create** new wallet or import existing one\n3ï¸âƒ£ **Secure** your seed phrase (keep it safe!)\n4ï¸âƒ£ **Visit** TruePass and click \x27Connect Wallet\x27\n5ï¸âƒ£ **Approve** connection in MetaMask popup\n6ï¸âƒ£ **Ready!** You can now buy NFTs and tickets\n\n**ğŸ›¡ï¸ Security Tips:**\nâ€¢ Never share your seed phrase with anyone\nâ€¢ Use strong passwords\nâ€¢ Enable 2FA when possible\nâ€¢ Bookmark official TruePass URL\n\n**ğŸ†˜ Having connection issues?** I can help troubleshoot! \n\n**ğŸ“± Mobile Users:** MetaMask mobile app works great too!"

def totpExplanationText : String :=
  "âš¡ **TOTP Ticket Validation - Advanced Security!**\n\n**What is TOTP?**\nTime-based One-Time Password - generates unique 6-digit codes every 30 seconds\n\n**ğŸ”’ How It Works:**\n1ï¸âƒ£ **Generate** ticket with unique QR code\n2ï¸âƒ£ **Scan** QR with Google Authenticator app\n3ï¸âƒ£ **Mint** NFT ticket on blockchain\n4ï¸âƒ£ **Validate** using current 6-digit code from app\n5ï¸âƒ£ **Verify** authenticity instantly\n\n**ğŸ¯ Why It\x27s Amazing:**\nâ€¢ âœ… Prevents ticket fraud and counterfeiting\nâ€¢ âœ… Works offline (no internet needed for validation)\nâ€¢ âœ… Codes change every 30 seconds\nâ€¢ âœ… Non-transferable tickets stop scalping\nâ€¢ âœ… Blockchain-verified authenticity\n\n**ğŸ“± Supported Apps:** Google Authenticator, Authy, Microsoft Authenticator\n\n**Want to create your first TOTP ticket?** I\x27ll guide you through it! ğŸš€"

def paymentMethodsText : String :=
  "ğŸ’³ **TruePass Payment Methods - Choose What\x27s Best for You!**\n\n**ğŸ‡®ğŸ‡³ Supported Indian Payment Methods:**\n\n**UPI Payments** ğŸ“±\nâ€¢ PhonePe, Google Pay, Paytm UPI\nâ€¢ Instant transfers\nâ€¢ Most popular choice\n\n**Credit/Debit Cards** ğŸ’³\nâ€¢ Visa, MasterCard, RuPay\nâ€¢ Secure encrypted processing\nâ€¢ International cards accepted\n\n**Net Banking** ğŸ¦\nâ€¢ All major Indian banks\nâ€¢ Direct bank transfers\nâ€¢ Highly secure\n\n**Digital Wallets** ğŸ“²\nâ€¢ Paytm Wallet\nâ€¢ Other supported wallets\n\n**ğŸ”’ Security Features:**\nâ€¢ PCI DSS compliant processing\nâ€¢ 256-bit SSL encryption\nâ€¢ No card details stored\nâ€¢ Instant refund policy\n\n**ğŸ’° Automatic Conversion:**\nYour INR payment â†’ Transak conversion â†’ ETH â†’ NFT minting\n*All happens behind the scenes!*\n\n**Any payment questions?** I\x27m here to help! ğŸ¤"

def troubleshootingText : String :=
  "ğŸ”§ **TruePass Troubleshooting Guide**\n\n**ğŸ”— Wallet Connection Issues:**\nâ€¢ Unlock MetaMask and refresh page\nâ€¢ Clear browser cache and cookies\nâ€¢ Check you\x27re on Ethereum network\nâ€¢ Disable other wallet extensions temporarily\n\n**ğŸ’³ Payment Problems:**\nâ€¢ Verify sufficient balance in payment method\nâ€¢ Check internet connection stability\nâ€¢ Try alternative payment method\nâ€¢ Wait 5-10 minutes for processing\n\n**ğŸ« Ticket Validation Issues:**\nâ€¢ Sync device time (very important!)\nâ€¢ Generate fresh code from authenticator\nâ€¢ Check ticket hasn\x27t expired\nâ€¢ Verify correct Token ID\n\n**ğŸŒ General Issues:**\nâ€¢ Use supported browsers (Chrome, Firefox, Safari)\nâ€¢ Update to latest browser version\nâ€¢ Disable ad blockers temporarily\nâ€¢ Try incognito/private mode\n\n**ğŸ’¬ Still Need Help?**\nâ€¢ Contact our support team\nâ€¢ Join TruePass community Discord\nâ€¢ Check our detailed FAQ section\n\n**I can provide specific help too - just describe your issue!** ğŸ†˜"

/-- The `quick_responses` dict, in source order. -/
def quick_responses : List (String × String) :=
  [("welcome", welcomeText),
   ("ticket_buying", ticketBuyingText),
   ("wallet_setup", walletSetupText),
   ("totp_explanation", totpExplanationText),
   ("payment_methods", paymentMethodsText),
   ("troubleshooting", troubleshootingText)]

/-- `quick_responses.get(topic, "I don't have a quick response ...")`. -/
def getQuickResponse (topic : String) : String :=
  match quick_responses.find? (fun q => q.1 == topic) with
  | some q => q.2
  | none => "I don\x27t have a quick response for that topic. Please ask me a specific question and I\x27ll provide detailed help!"

/-! ## Session state and the response dispatcher -/

/-- One entry of `conversation_history`: a `{"role": ..., "content": ...}` dict. -/
structure Turn where
  role : String
  content : String
deriving DecidableEq

/-- The mutable per-session fields of `TruePassChatbot`:
`conversation_history` plus the three `user_context` entries. -/
structure ChatState where
  conversation_history : List Turn
  current_page : Option String
  user_type : String
  last_topic : Option String
deriving DecidableEq

/-- The fresh state built by `__init__`. -/
def initChatState : ChatState :=
  { conversation_history := [], current_page := none,
    user_type := "new", last_topic := none }

/-- The fixed apology of the `except` branch of `get_contextual_response`,
with the failure detail appended where the f-string interpolates `str(e)`. -/
def errorResponse (e : String) : String :=
  "I apologize, but I\x27m experiencing some technical difficulties right now. ğŸ”§\n\n**What you can try:**\nâ€¢ Refresh the page and ask your question again\nâ€¢ Check your internet connection\nâ€¢ Try asking a more specific question\n\n**Need immediate help?**\nâ€¢ Check our Help Center for common solutions\nâ€¢ Contact TruePass support team\nâ€¢ Join our community Discord for real-time help\n\nError details: " ++ e

/-- `get_contextual_response(user_input, current_page)` (lines 348-450).
The only statement in the `try` block that can raise is the external
`g4f.ChatCompletion.create` call; it is modelled by its outcome `completion`
for this turn.  On success the code appends the user and assistant turns and
records the winning intent as `last_topic`; on failure it returns the apology
with the state as it was after the `current_page` update (Python tests the
argument for truthiness, so an empty string does not update the page). -/
def getContextualResponse (completion : Except String String) (st : ChatState)
    (user_input : String) (current_page : Option String) : String × ChatState :=
  let st1 :=
    match current_page with
    | some p => if p.isEmpty then st else { st with current_page := some p }
    | none => st
  let intent_analysis := analyzeUserIntent user_input
  match completion with
  | Except.ok response =>
    (response,
     { st1 with
        conversation_history := st1.conversation_history ++
          [{ role := "user", content := user_input },
           { role := "assistant", content := response }],
        last_topic := some intent_analysis.intent })
  | Except.error e => (errorResponse e, st1)

/-- The six shortcut keyword sets of `chat` (lines 616-632), in check order,
paired with the quick-response topic each one dispatches to. -/
def shortcutChecks : List (List String × String) :=
  [(["hello", "hi", "hey", "welcome"], "welcome"),
   (["buy ticket", "purchase ticket", "ticket price"], "ticket_buying"),
   (["wallet", "metamask", "connect wallet"], "wallet_setup"),
   (["totp", "validation", "authenticate", "verification"], "totp_explanation"),
   (["payment", "upi", "paytm", "credit card"], "payment_methods"),
   (["error", "problem", "not working", "issue", "help"], "troubleshooting")]

/-- First shortcut whose keyword set hits `user_input.lower().strip()`. -/
def firstShortcut (user_input_lower : String) :
    List (List String × String) → Option String
  | [] => none
  | (kws, topic) :: rest =>
    if kws.any (fun k => pyIn k user_input_lower) then some topic
    else firstShortcut user_input_lower rest

/-- Which branch of `chat` fires for this input: `none` when the input is
whitespace-only or no shortcut keyword occurs (the full pipeline runs). -/
def shortcutTopic (user_input : String) : Option String :=
  if (pyStrip user_input).isEmpty then none
  else firstShortcut (pyStrip (lowerStr user_input)) shortcutChecks

/-- The empty-input reply of `chat`. -/
def emptyInputResponse : String :=
  "I\x27d love to help! Please ask me anything about TruePass - NFTs, tickets, payments, or technical support. ğŸ˜Š"

/-- `chat(user_input, current_page)` (lines 606-635). -/
def chat (completion : Except String String) (st : ChatState)
    (user_input : String) (current_page : Option String) : String × ChatState :=
  if (pyStrip user_input).isEmpty then (emptyInputResponse, st)
  else
    match firstShortcut (pyStrip (lowerStr user_input)) shortcutChecks with
    | some topic => (getQuickResponse topic, st)
    | none => getContextualResponse completion st user_input current_page

/-- One successful full-pipeline turn per list entry:
`(user_input, completion text, current_page)`. -/
def runTurns (st : ChatState) : List (String × String × Option String) → ChatState
  | [] => st
  | (input, resp, page) :: rest =>
    runTurns (getContextualResponse (Except.ok resp) st input page).2 rest

/-- The pairs of turns the full pipeline appends, in chronological order. -/
def historyOf : List (String × String × Option String) → List Turn
  | [] => []
  | (input, resp, _) :: rest =>
    { role := "user", content := input } ::
      { role := "assistant", content := resp } :: historyOf rest


/-! ## Web chatbot session data (`TruePassWebChatbot`, lines 658-752)

Timestamps come from `datetime.now()`; the clock readings are passed in as
string parameters. -/

/-- One `user_feedback` entry built by `add_user_feedback`. -/
structure Feedback where
  message_id : String
  rating : ℤ
  comment : Option String
  timestamp : String
  session_id : String
deriving DecidableEq

/-- The mutable fields `TruePassWebChatbot` adds to the base chatbot. -/
structure WebChatState where
  chat_state : ChatState
  session_id : String
  user_feedback : List Feedback
deriving DecidableEq

/-- `add_user_feedback(message_id, rating, comment)` (lines 716-728). -/
def addUserFeedback (timestamp : String) (st : WebChatState) (message_id : String)
    (rating : ℤ) (comment : Option String) : Feedback × WebChatState :=
  let feedback : Feedback :=
    { message_id := message_id, rating := rating, comment := comment,
      timestamp := timestamp, session_id := st.session_id }
  (feedback, { st with user_feedback := st.user_feedback ++ [feedback] })

/-- Result shape of `get_conversation_summary` (lines 645-655); the
`user_context` dict is flattened into its three fields. -/
structure ConversationSummary where
  session_duration : String
  messages_exchanged : Nat
  topics_discussed : List String
  context_current_page : Option String
  context_user_type : String
  context_last_topic : Option String
  last_interaction : Option Turn
deriving DecidableEq

/-- `get_conversation_summary()`.  History turns carry only `role` and
`content`, so the comprehension filtering on an `intent` key yields `[]`. -/
def getConversationSummary (session_duration : String) (st : ChatState) :
    ConversationSummary :=
  { session_duration := session_duration,
    messages_exchanged := st.conversation_history.length,
    topics_discussed := [],
    context_current_page := st.current_page,
    context_user_type := st.user_type,
    context_last_topic := st.last_topic,
    last_interaction := st.conversation_history.getLast? }

structure SessionInfo where
  session_id : String
  start_time : String
  end_time : String
  duration : String
  platform : String
deriving DecidableEq

structure ConversationData where
  messages : List Turn
  message_count : Nat
  context_current_page : Option String
  context_user_type : String
  context_last_topic : Option String
deriving DecidableEq

structure FeedbackData where
  feedback_entries : List Feedback
  average_rating : Option ℚ
deriving DecidableEq

structure ExportData where
  session_info : SessionInfo
  conversation_data : ConversationData
  feedback_data : FeedbackData
  analytics : ConversationSummary
deriving DecidableEq

/-- `export_session_data()` (lines 730-752).  The method only reads the
session's fields; returning the state next to the report makes that explicit.
`average_rating` is the Python conditional expression
`sum(...) / len(...) if self.user_feedback else None`. -/
def exportSessionData (start_time end_time duration : String) (st : WebChatState) :
    ExportData × WebChatState :=
  ({ session_info :=
      { session_id := st.session_id, start_time := start_time, end_time := end_time,
        duration := duration, platform := "TruePass" },
     conversation_data :=
      { messages := st.chat_state.conversation_history,
        message_count := st.chat_state.conversation_history.length,
        context_current_page := st.chat_state.current_page,
        context_user_type := st.chat_state.user_type,
        context_last_topic := st.chat_state.last_topic },
     feedback_data :=
      { feedback_entries := st.user_feedback,
        average_rating :=
          if st.user_feedback.isEmpty then none
          else some ((st.user_feedback.map (fun f => (f.rating : ℚ))).sum /
            (st.user_feedback.length : ℚ)) },
     analytics := getConversationSummary duration st.chat_state },
   st)

/-! ## Correspondence between the rational scorer and its numerator mirror -/

lemma qden_pos (s : String) : 0 < qden s := by
  unfold qden
  exact_mod_cast Nat.lt_of_lt_of_le Nat.zero_lt_one (Nat.le_max_right _ 1)

lemma patternScore_eq_rawN (s : String) (p : IntentPattern) :
    patternScore s p = (rawScoreN s p : ℚ) / qden s := by
  unfold patternScore rawScoreN qden
  push_cast
  ring

lemma intentScores_eq_mapN (s : String) :
    intentScores s = (intentScoresN s).map (overDen (qden s)) := by
  unfold intentScores intentScoresN
  rw [List.map_map]
  exact List.map_congr_left (fun ip _ => by
    simp [overDen, Function.comp, patternScore_eq_rawN])

lemma pyMaxStep_overDen (d : ℚ) (hd : 0 < d) (b c : String × Nat) :
    pyMaxStep (overDen d b) (overDen d c) = overDen d (pyMaxStepN b c) := by
  unfold pyMaxStep pyMaxStepN overDen
  by_cases h : b.2 < c.2
  · rw [if_pos (by exact_mod_cast (div_lt_div_iff_of_pos_right hd).mpr (by exact_mod_cast h)),
      if_pos h]
  · rw [if_neg (by
      intro hlt
      exact h (by exact_mod_cast (div_lt_div_iff_of_pos_right hd).mp hlt)), if_neg h]

lemma foldl_pyMaxStep_overDen (d : ℚ) (hd : 0 < d) :
    ∀ (xs : List (String × Nat)) (b : String × Nat),
      (xs.map (overDen d)).foldl pyMaxStep (overDen d b) =
        overDen d (xs.foldl pyMaxStepN b) := by
  intro xs
  induction xs with
  | nil => intro b; rfl
  | cons c t ih =>
    intro b
    simp only [List.map_cons, List.foldl_cons]
    rw [pyMaxStep_overDen d hd]
    exact ih (pyMaxStepN b c)

lemma pyMaxByVal_overDen (d : ℚ) (hd : 0 < d) (l : List (String × Nat)) :
    pyMaxByVal (l.map (overDen d)) = pyMaxByValN l := by
  cases l with
  | nil => rfl
  | cons x xs =>
    simp only [List.map_cons, pyMaxByVal, pyMaxByValN]
    rw [foldl_pyMaxStep_overDen d hd]
    rfl

lemma find?_map_overDen (d : ℚ) (k : String) :
    ∀ l : List (String × Nat),
      (l.map (overDen d)).find? (fun q => q.1 == k) =
        (l.find? (fun q => q.1 == k)).map (overDen d) := by
  intro l
  induction l with
  | nil => rfl
  | cons x xs ih =>
    simp only [List.map_cons, List.find?]
    by_cases h : x.1 == k
    · rw [show (overDen d x).1 = x.1 from rfl, h]
      rfl
    · rw [show (overDen d x).1 = x.1 from rfl, Bool.not_eq_true] at *
      rw [h]
      simpa using ih

lemma scoresGet_overDen (d : ℚ) (l : List (String × Nat)) (k : String) :
    scoresGet (l.map (overDen d)) k = (scoresGetN l k : ℚ) / d := by
  unfold scoresGet scoresGetN
  rw [find?_map_overDen]
  cases l.find? (fun q => q.1 == k) with
  | none => simp
  | some q => rfl

/-- Evaluation bridge: intent and confidence of `analyze_user_intent` in terms
of the kernel-computable numerator mirror. -/
theorem analyze_eval (s : String) :
    (analyzeUserIntent s).intent = pyMaxByValN (intentScoresN (lowerStr s)) ∧
    (analyzeUserIntent s).confidence =
      (scoresGetN (intentScoresN (lowerStr s))
        (pyMaxByValN (intentScoresN (lowerStr s))) : ℚ) / qden (lowerStr s) ∧
    (analyzeUserIntent s).all_scores =
      (intentScoresN (lowerStr s)).map (overDen (qden (lowerStr s))) := by
  have hq := qden_pos (lowerStr s)
  simp only [analyzeUserIntent, intentScores_eq_mapN]
  rw [pyMaxByVal_overDen _ hq, scoresGet_overDen]
  refine ⟨?_, ?_, ?_⟩ <;> first | rfl | trivial


/-! ## General facts about the Python argmax fold -/

lemma pyFold_mem (xs : List (String × ℚ)) :
    ∀ b, xs.foldl pyMaxStep b = b ∨ xs.foldl pyMaxStep b ∈ xs := by
  induction xs with
  | nil => intro b; left; rfl
  | cons c t ih =>
    intro b
    rw [List.foldl_cons]
    rcases ih (pyMaxStep b c) with h | h
    · rw [h]
      unfold pyMaxStep
      split
      · right; exact List.mem_cons_self _ _
      · left; rfl
    · right; exact List.mem_cons_of_mem _ h

lemma pyMaxStep_snd (b c : String × ℚ) : (pyMaxStep b c).2 = max b.2 c.2 := by
  unfold pyMaxStep
  split
  · exact (max_eq_right (le_of_lt (by assumption))).symm
  · exact (max_eq_left (le_of_not_lt (by assumption))).symm

lemma pyFold_snd (xs : List (String × ℚ)) :
    ∀ b, (xs.foldl pyMaxStep b).2 = (xs.map Prod.snd).foldl max b.2 := by
  induction xs with
  | nil => intro b; rfl
  | cons c t ih =>
    intro b
    rw [List.foldl_cons, List.map_cons, List.foldl_cons, ih, pyMaxStep_snd]

lemma find?_key_of_nodup :
    ∀ (l : List (String × ℚ)) (w : String × ℚ), w ∈ l → (l.map Prod.fst).Nodup →
      l.find? (fun q => q.1 == w.1) = some w := by
  intro l
  induction l with
  | nil => intro w hw _; cases hw
  | cons h t ih =>
    intro w hw hnd
    rw [List.map_cons, List.nodup_cons] at hnd
    rcases List.mem_cons.mp hw with rfl | hwt
    · exact List.find?_cons_of_pos _ (beq_self_eq_true _)
    · by_cases hb : h.1 == w.1
      · exact absurd (eq_of_beq hb ▸ List.mem_map_of_mem Prod.fst hwt) hnd.1
      · exact Eq.trans (List.find?_cons_of_neg _ hb) (ih w hwt hnd.2)

/-! ## Claim C1: behaviour when no keyword hits -/

lemma rawScoreN_eq_zero {user_input : String} (h : noKeywordHit user_input = true) :
    ∀ ip ∈ intent_patterns, rawScoreN (lowerStr user_input) ip.2 = 0 := by
  intro ip hip
  simp only [noKeywordHit, List.all_eq_true, Bool.not_eq_true'] at h
  have hk := h ip hip
  unfold rawScoreN
  rw [List.filter_eq_nil_iff.mpr (fun k hk2 => by
        rw [hk k (List.mem_append_left _ hk2)]; exact Bool.false_ne_true),
      List.filter_eq_nil_iff.mpr (fun k hk2 => by
        rw [hk k (List.mem_append_right _ hk2)]; exact Bool.false_ne_true)]
  rfl

lemma intentScoresN_all_zero {user_input : String} (h : noKeywordHit user_input = true) :
    intentScoresN (lowerStr user_input) = intent_patterns.map (fun ip => (ip.1, 0)) := by
  unfold intentScoresN
  exact List.map_congr_left (fun ip hip => by rw [rawScoreN_eq_zero h ip hip])

/-- C1 (counterexample): on the input "zzz" no keyword of any pattern occurs,
yet `analyze_user_intent` does not return `general_info`: the Python
`max(dict, key=dict.get)` keeps the first key of an all-zero table, which is
`ticket_purchase`.  This refutes the claim that the result defaults to
`general_info` whenever every score is 0. -/
theorem c1_counterexample :
    noKeywordHit "zzz" = true ∧ (analyzeUserIntent "zzz").intent ≠ "general_info" := by
  refine ⟨by decide, ?_⟩
  rw [(analyze_eval "zzz").1]
  decide

/-- C1 (amended): for every input text in which no keyword and no boost
keyword of any pattern occurs, `analyze_user_intent` returns the first
pattern of the table, `ticket_purchase`, with confidence 0. -/
theorem c1_all_zero_default (user_input : String) (h : noKeywordHit user_input = true) :
    (analyzeUserIntent user_input).intent = "ticket_purchase" ∧
    (analyzeUserIntent user_input).confidence = 0 := by
  have hz := intentScoresN_all_zero h
  constructor
  · rw [(analyze_eval user_input).1, hz]
    decide
  · rw [(analyze_eval user_input).2.1, hz]
    rw [show scoresGetN (intent_patterns.map (fun ip => (ip.1, 0)))
          (pyMaxByValN (intent_patterns.map (fun ip => (ip.1, 0)))) = 0 from by decide]
    simp

/-- C1 (witness for the amended theorem, at the empty string). -/
theorem c1_all_zero_default_witness :
    noKeywordHit "" = true ∧
    ((analyzeUserIntent "").intent = "ticket_purchase" ∧
      (analyzeUserIntent "").confidence = 0) :=
  ⟨by decide, c1_all_zero_default "" (by decide)⟩

/-! ## Claim C2: result invariants of the scorer -/

/-- C2: for every input, the returned intent is a key of the fixed 8-pattern
table, the confidence is nonnegative, and the confidence is exactly the
maximum entry of `all_scores`. -/
theorem c2_intent_result_invariants (user_input : String) :
    (analyzeUserIntent user_input).intent ∈ intent_patterns.map Prod.fst ∧
    0 ≤ (analyzeUserIntent user_input).confidence ∧
    ((analyzeUserIntent user_input).all_scores.map Prod.snd).max? =
      some ((analyzeUserIntent user_input).confidence) := by
  have hall : (analyzeUserIntent user_input).all_scores =
      intentScores (lowerStr user_input) := by
    simp [analyzeUserIntent]
  have hint : (analyzeUserIntent user_input).intent =
      pyMaxByVal (intentScores (lowerStr user_input)) := by
    simp [analyzeUserIntent]
  have hconf : (analyzeUserIntent user_input).confidence =
      scoresGet (intentScores (lowerStr user_input))
        (pyMaxByVal (intentScores (lowerStr user_input))) := by
    simp [analyzeUserIntent]
  have hkeys : (intentScores (lowerStr user_input)).map Prod.fst =
      intent_patterns.map Prod.fst := by
    unfold intentScores
    rw [List.map_map]
    rfl
  have hnd : ((intentScores (lowerStr user_input)).map Prod.fst).Nodup := by
    rw [hkeys]; decide
  have hnonneg : ∀ q ∈ intentScores (lowerStr user_input), 0 ≤ q.2 := by
    intro q hq
    unfold intentScores at hq
    rcases List.mem_map.mp hq with ⟨ip, _, rfl⟩
    dsimp only
    rw [patternScore_eq_rawN]
    exact div_nonneg (Nat.cast_nonneg _) (le_of_lt (qden_pos _))
  cases hcons : intentScores (lowerStr user_input) with
  | nil =>
    exfalso
    simp [intentScores, intent_patterns] at hcons
  | cons x xs =>
    have hwmem : xs.foldl pyMaxStep x ∈ intentScores (lowerStr user_input) := by
      rw [hcons]
      rcases pyFold_mem xs x with h | h
      · rw [h]; exact List.mem_cons_self _ _
      · exact List.mem_cons_of_mem _ h
    have hget : (intentScores (lowerStr user_input)).find?
        (fun q => q.1 == (xs.foldl pyMaxStep x).1) = some (xs.foldl pyMaxStep x) :=
      find?_key_of_nodup _ _ hwmem hnd
    have hpm : pyMaxByVal (intentScores (lowerStr user_input)) =
        (xs.foldl pyMaxStep x).1 := by
      rw [hcons]; rfl
    have hconf' : scoresGet (intentScores (lowerStr user_input))
        (pyMaxByVal (intentScores (lowerStr user_input))) = (xs.foldl pyMaxStep x).2 := by
      rw [hpm]
      unfold scoresGet
      rw [hget]
    refine ⟨?_, ?_, ?_⟩
    · rw [hint, ← hkeys, hpm]
      exact List.mem_map_of_mem Prod.fst hwmem
    · rw [hconf, hconf']
      exact hnonneg _ hwmem
    · rw [hall, hconf, hconf', hcons, List.map_cons]
      rw [show (x.2 :: xs.map Prod.snd).max? =
            some ((xs.map Prod.snd).foldl max x.2) from rfl]
      rw [pyFold_snd]

/-! ## Claim C3: the score formula -/

/-- C3: for every input and every pattern of the table, the score reported in
`all_scores` is exactly the specification's formula, and the divisor is the
guarded `max(wordCount, 1) ≥ 1` — in particular the empty string, whose word
count is 0, still divides by 1. -/
theorem c3_score_formula (user_input : String) :
    (analyzeUserIntent user_input).all_scores =
      intent_patterns.map (fun ip => (ip.1, specScore user_input ip.2)) ∧
    1 ≤ max (wordCount (lowerStr user_input)) 1 ∧
    wordCount "" = 0 := by
  refine ⟨?_, Nat.le_max_right _ _, rfl⟩
  have hall : (analyzeUserIntent user_input).all_scores =
      intentScores (lowerStr user_input) := by
    simp [analyzeUserIntent]
  rw [hall]
  unfold intentScores
  exact List.map_congr_left (fun ip _ => rfl)

/-! ## Claim C4: price extraction on "₹500" -/

/-- C4 (code evaluation at the failing input): the shipped price pattern
requires the literal characters U+00E2 U+201A (the double-encoded rupee
sign), so on the text `₹500` — and on the repository's own unit-test input —
`_extract_entities` finds nothing, not `{"price": "500"}`. -/
theorem c4_price_regex_mismatch :
    extractEntities "₹500" ["price"] = [] ∧
    extractEntities "₹500" ["price"] ≠ [("price", "500")] ∧
    extractEntities "I want to buy a ticket for ₹500" ["price"] = [] := by
  refine ⟨by decide, by decide, by decide⟩

/-! ## Claim C5: shortcut branches of `chat` -/

/-- C5: whenever a shortcut keyword branch of `chat` fires, the call returns
that branch's canned response with the state unchanged, and the result does
not depend on the external completion collaborator at all. -/
theorem c5_shortcut_no_completion_no_history (completion : Except String String)
    (st : ChatState) (user_input : String) (current_page : Option String)
    (topic : String) (h : shortcutTopic user_input = some topic) :
    chat completion st user_input current_page = (getQuickResponse topic, st) ∧
    ∀ completion2, chat completion2 st user_input current_page =
      chat completion st user_input current_page := by
  unfold shortcutTopic at h
  by_cases he : (pyStrip user_input).isEmpty
  · rw [if_pos he] at h
    cases h
  · rw [if_neg he] at h
    constructor
    · unfold chat
      rw [if_neg he, h]
    · intro completion2
      unfold chat
      rw [if_neg he, h, if_neg he]

/-- C5 witness: "hi" triggers the greeting branch; even a failing completion
collaborator is never consulted and the state is returned untouched. -/
theorem c5_shortcut_witness :
    shortcutTopic "hi" = some "welcome" ∧
    chat (Except.error "boom") initChatState "hi" none =
      (getQuickResponse "welcome", initChatState) :=
  ⟨by decide,
   (c5_shortcut_no_completion_no_history (Except.error "boom") initChatState
     "hi" none "welcome" (by decide)).1⟩

/-! ## Claim C6: completion failure recovery -/

/-- C6: when the external completion call fails, `get_contextual_response`
returns the fixed apology with the failure detail appended, and the
conversation history is exactly what it was before the call. -/
theorem c6_completion_failure_recovery (e : String) (st : ChatState)
    (user_input : String) (current_page : Option String) :
    (getContextualResponse (Except.error e) st user_input current_page).1 =
      errorResponse e ∧
    (getContextualResponse (Except.error e) st user_input current_page).2.conversation_history =
      st.conversation_history := by
  cases current_page with
  | none => exact ⟨rfl, rfl⟩
  | some p =>
    by_cases hp : p.isEmpty
    · simp [getContextualResponse, hp]
    · simp [getContextualResponse, hp]

/-! ## Claim C7: history growth over successful turns -/

lemma getContextualResponse_ok_history (resp : String) (st : ChatState)
    (user_input : String) (current_page : Option String) :
    (getContextualResponse (Except.ok resp) st user_input current_page).2.conversation_history =
      st.conversation_history ++
        [{ role := "user", content := user_input },
         { role := "assistant", content := resp }] := by
  cases current_page with
  | none => rfl
  | some p =>
    by_cases hp : p.isEmpty
    · simp [getContextualResponse, hp]
    · simp [getContextualResponse, hp]

lemma runTurns_history (turns : List (String × String × Option String)) :
    ∀ st : ChatState, (runTurns st turns).conversation_history =
      st.conversation_history ++ historyOf turns := by
  induction turns with
  | nil => intro st; simp [runTurns, historyOf]
  | cons t rest ih =>
    intro st
    obtain ⟨input, resp, page⟩ := t
    show (runTurns (getContextualResponse (Except.ok resp) st input page).2
        rest).conversation_history = _
    rw [ih, getContextualResponse_ok_history, historyOf]
    simp

lemma historyOf_length (turns : List (String × String × Option String)) :
    (historyOf turns).length = 2 * turns.length := by
  induction turns with
  | nil => rfl
  | cons t rest ih =>
    obtain ⟨input, resp, page⟩ := t
    show ((_ : Turn) :: (_ : Turn) :: historyOf rest).length = _
    simp only [List.length_cons, ih, List.length_cons]
    omega

/-- C7: starting from a fresh session, N successful full-pipeline turns leave
a history of length 2N consisting, per turn and in chronological order, of
the user turn followed by the produced assistant turn. -/
theorem c7_history_growth (turns : List (String × String × Option String)) :
    (∀ st : ChatState, (runTurns st turns).conversation_history =
      st.conversation_history ++ historyOf turns) ∧
    (runTurns initChatState turns).conversation_history = historyOf turns ∧
    (runTurns initChatState turns).conversation_history.length = 2 * turns.length := by
  refine ⟨runTurns_history turns, ?_, ?_⟩
  · rw [runTurns_history turns initChatState]
    rfl
  · rw [runTurns_history turns initChatState]
    show (historyOf turns).length = _
    exact historyOf_length turns

/-! ## Claim C8: extracted entities stay inside the requested list -/

lemma mem_addEntity {l : List (String × String)} {cond : Bool} {name : String}
    {o : Option String} {kv : String × String} (h : kv ∈ addEntity l cond name o) :
    kv ∈ l ∨ (cond = true ∧ kv.1 = name) := by
  unfold addEntity at h
  by_cases hc : cond = true
  · rw [if_pos hc] at h
    cases o with
    | none => exact Or.inl h
    | some v =>
      rcases List.mem_append.mp h with h1 | h1
      · exact Or.inl h1
      · right
        refine ⟨hc, ?_⟩
        rw [List.mem_singleton.mp h1]
  · rw [if_neg hc] at h
    exact Or.inl h

/-- C8: every key of the mapping returned by `_extract_entities` is a member
of the requested entity-name list; entity kinds that were not requested never
appear. -/
theorem c8_entities_subset (text : String) (entity_types : List String)
    (kv : String × String) (h : kv ∈ extractEntities text entity_types) :
    kv.1 ∈ entity_types := by
  unfold extractEntities at h
  rcases mem_addEntity h with h | ⟨hc, hk⟩
  · rcases mem_addEntity h with h | ⟨hc, hk⟩
    · rcases mem_addEntity h with h | ⟨hc, hk⟩
      · rcases mem_addEntity h with h | ⟨hc, hk⟩
        · cases h
        · rw [hk]; simpa using hc
      · rw [hk]; simpa using hc
    · rw [hk]; simpa using hc
  · rw [hk]; simpa using hc

/-- C8 witness: the repository's own payment-method example. -/
theorem c8_entities_subset_witness :
    (("payment_method", "upi") ∈ extractEntities "Can I pay with UPI?" ["payment_method"]) ∧
    "payment_method" ∈ ["payment_method"] :=
  ⟨by decide,
   c8_entities_subset "Can I pay with UPI?" ["payment_method"]
     ("payment_method", "upi") (by decide)⟩

/-! ## Claim C9: `export_session_data` -/

/-- C9: the export is a pure read-only aggregation — the session state comes
back exactly as it went in — and with zero feedback entries the
`average_rating` field is `None` rather than a division-by-zero fault. -/
theorem c9_export_read_only (start_time end_time duration : String) (st : WebChatState) :
    (exportSessionData start_time end_time duration st).2 = st ∧
    (st.user_feedback = [] →
      (exportSessionData start_time end_time duration st).1.feedback_data.average_rating =
        none) := by
  refine ⟨rfl, fun h => ?_⟩
  simp [exportSessionData, h]

/-- C9 witness: a fresh session with no feedback. -/
theorem c9_export_read_only_witness :
    (exportSessionData "t0" "t1" "d" ⟨initChatState, "s", []⟩).2 =
      (⟨initChatState, "s", []⟩ : WebChatState) ∧
    (exportSessionData "t0" "t1" "d" ⟨initChatState, "s", []⟩).1.feedback_data.average_rating =
      none :=
  ⟨(c9_export_read_only "t0" "t1" "d" ⟨initChatState, "s", []⟩).1,
   (c9_export_read_only "t0" "t1" "d" ⟨initChatState, "s", []⟩).2 rfl⟩

/-! ## Claim C10: `current_page` and `last_topic` updates -/

/-- C10 (counterexample): Python guards the update with `if current_page:`,
which tests truthiness, so the non-null argument `""` is NOT stored — the
previous page survives even though the claim promises the argument is set. -/
theorem c10_counterexample :
    (getContextualResponse (Except.error "err")
      { initChatState with current_page := some "home" } "question" (some "")).2.current_page =
      some "home" ∧
    some "home" ≠ (some "" : Option String) := by
  constructor
  · rfl
  · decide

/-- C10 (amended): for every call whose `current_page` argument is non-null
and non-empty, the page is stored even when the completion call fails (error
recovery does not roll it back), while `last_topic` becomes the winning
intent only when the completion succeeds and is untouched on failure. -/
theorem c10_page_update (st : ChatState) (user_input p e r : String) (hp : p ≠ "") :
    (getContextualResponse (Except.error e) st user_input (some p)).2.current_page = some p ∧
    (getContextualResponse (Except.ok r) st user_input (some p)).2.current_page = some p ∧
    (getContextualResponse (Except.error e) st user_input (some p)).2.last_topic =
      st.last_topic ∧
    (getContextualResponse (Except.ok r) st user_input (some p)).2.last_topic =
      some (analyzeUserIntent user_input).intent := by
  have hp2 : ¬ p.isEmpty = true := fun hc => hp ((String.isEmpty_iff p).mp hc)
  refine ⟨?_, ?_, ?_, ?_⟩ <;> simp [getContextualResponse, hp2]

/-- C10 witness for the amended theorem. -/
theorem c10_page_update_witness :
    ("checkout" ≠ "") ∧
    (getContextualResponse (Except.error "boom") initChatState "hello"
      (some "checkout")).2.current_page = some "checkout" :=
  ⟨by decide,
   (c10_page_update initChatState "hello" "checkout" "boom" "ok" (by decide)).1⟩
